import Mathlib

/-!
Verification development for the dogg token-monitoring repository.

The Python sources (`token_server.py`, `db_operations.py`, `stats_analyzer.py`)
are shallowly embedded below.  Market caps and clock readings are modelled as
rationals (Python floats), SQLite tables as Lean lists, and the external world
(HTTP responses, wall-clock reads) as explicit inputs.  Exceptions that the
source catches are modelled by the `Option`/`Except`/flag branch the handler
takes.
-/

set_option maxRecDepth 4000

namespace Dogg

/-! ### Market data client (`token_server.fetch_dexscreener_data`) -/

/-- One DexScreener trading pair.  Only the field the monitoring loop reads
(`fdv`, used as the current market cap) is modelled; `none` models a pair
object whose JSON lacks the `fdv` key, so that `pair['fdv']` raises. -/
structure DexPair where
  fdv : Option ℚ
deriving DecidableEq, Repr

/-- The JSON snapshot returned by DexScreener: a dict with a `pairs` array.
An empty list models both a missing/empty/null `pairs` entry, for which
`dex_data['pairs'][0]` raises. -/
structure DexData where
  pairs : List DexPair
deriving DecidableEq, Repr

/-- Outcome of the HTTP GET inside `fetch_dexscreener_data`: either a response
with a status code and a body (`none` body = a 200 whose `.json()` raises), or
a network/timeout exception. -/
inductive HttpOutcome where
  | resp (status : ℕ) (body : Option DexData)
  | netExn
deriving DecidableEq, Repr

/-- The request configuration `fetch_dexscreener_data` builds: URL plus the
hard-coded `timeout=10` passed to `requests.get`. -/
structure HttpRequest where
  url : String
  timeout : ℚ
deriving Repr

/-- The `requests.get(url, ..., timeout=10)` call site in
`fetch_dexscreener_data` (token_server.py:62-70). -/
def dexscreenerRequest (tokenAddress : String) : HttpRequest :=
  { url := "https://api.dexscreener.com/latest/dex/tokens/" ++ tokenAddress
    timeout := 10 }

/-- `fetch_dexscreener_data` (token_server.py:59-80): on HTTP 200 return the
parsed JSON body; on any non-200 status print and return `None`; on any
exception (network error, timeout, unparseable 200 body) print and return
`None`.  The outcome of the network call is an explicit input. -/
def fetch_dexscreener_data (o : HttpOutcome) : Option DexData :=
  match o with
  | .resp status body => if status = 200 then body else none
  | .netExn => none

/-! ### `parse_market_cap` (token_server.py:49-57) and the Python `float`
builtin it calls -/

/-- Split a character list at every occurrence of `sep` (the behaviour of
`str.split` on a single-character separator, used to model where a decimal
point or exponent marker sits inside a Python float literal). -/
def splitChar (sep : Char) : List Char → List (List Char)
  | [] => [[]]
  | c :: rest =>
    let r := splitChar sep rest
    if c = sep then [] :: r
    else
      match r with
      | [] => [[c]]
      | h :: t => (c :: h) :: t

/-- Decimal digit test for the characters of a float literal. -/
def allDigits (cs : List Char) : Bool := cs.all Char.isDigit

/-- Value of a string of decimal digits. -/
def natOfDigits (cs : List Char) : ℕ :=
  cs.foldl (fun n c => n * 10 + (c.toNat - 48)) 0

/-- Unsigned mantissa of a Python float literal: digits with at most one
decimal point and at least one digit (`"5"`, `"5."`, `".5"`, `"1.25"`). -/
def parseMantissa? (cs : List Char) : Option ℚ :=
  match splitChar '.' cs with
  | [i] => if !i.isEmpty && allDigits i then some (natOfDigits i : ℚ) else none
  | [i, f] =>
    if (i.isEmpty || allDigits i) && (f.isEmpty || allDigits f)
        && !(i.isEmpty && f.isEmpty) then
      some ((natOfDigits i : ℚ) + (natOfDigits f : ℚ) / (10 : ℚ) ^ f.length)
    else none
  | _ => none

/-- Mantissa with an optional leading sign. -/
def parseSignedMantissa? (cs : List Char) : Option ℚ :=
  match cs with
  | '-' :: rest => (parseMantissa? rest).map (fun q => -q)
  | '+' :: rest => parseMantissa? rest
  | _ => parseMantissa? cs

/-- Signed integer exponent of a float literal. -/
def parseExponent? (cs : List Char) : Option ℤ :=
  match cs with
  | '+' :: rest =>
    if !rest.isEmpty && allDigits rest then some (natOfDigits rest : ℤ) else none
  | '-' :: rest =>
    if !rest.isEmpty && allDigits rest then some (-(natOfDigits rest : ℤ)) else none
  | _ => if !cs.isEmpty && allDigits cs then some (natOfDigits cs : ℤ) else none

/-- Modelled from the Python builtin `float(str)` as used by
`parse_market_cap`: accepts decimal literals with optional sign, decimal
point and `e`/`E` exponent, returning `none` exactly when `float` raises
`ValueError`.  (Whitespace padding, underscores and `inf`/`nan`, which no
market-cap string uses, are not modelled.) -/
def pythonFloat? (cs : List Char) : Option ℚ :=
  let lowered := cs.map (fun c => if c = 'E' then 'e' else c)
  match splitChar 'e' lowered with
  | [m] => parseSignedMantissa? m
  | [m, x] => do
    let mq ← parseSignedMantissa? m
    let xe ← parseExponent? x
    pure (mq * (10 : ℚ) ^ xe)
  | _ => none

/-- The `multipliers.get(unit, 1)` lookup in `parse_market_cap`
(token_server.py:54-55), applied to the uppercased final character. -/
def unitMultiplier (c : Char) : ℚ :=
  if c.toUpper = 'K' then 1000
  else if c.toUpper = 'M' then 1000000
  else if c.toUpper = 'B' then 1000000000
  else 1

/-- Core of `parse_market_cap` on the character list of the input:
`float(mcap_str[:-1])` on the string minus its final character, multiplied by
the unit factor of the final character; any exception (empty string, final
chunk not a float) yields `0.0`. -/
def parseMcapChars (cs : List Char) : ℚ :=
  match cs.getLast? with
  | none => 0
  | some last =>
    match pythonFloat? cs.dropLast with
    | none => 0
    | some q => q * unitMultiplier last

/-- `parse_market_cap` (token_server.py:49-57). -/
def parse_market_cap (s : String) : ℚ := parseMcapChars s.data

example : parse_market_cap "900" = 90 := by with_unfolding_all rfl
example : parse_market_cap "1.5K" = 1500 := by with_unfolding_all rfl
example : parse_market_cap "2M" = 2000000 := by with_unfolding_all rfl
example : parse_market_cap "" = 0 := by with_unfolding_all rfl
example : parse_market_cap "abc" = 0 := by with_unfolding_all rfl
example : parse_market_cap "-5K" = -5000 := by with_unfolding_all rfl
example : parse_market_cap "3b" = 3000000000 := by with_unfolding_all rfl
example : pythonFloat? "1e3".data = some 1000 := by with_unfolding_all rfl
example : pythonFloat? "1.5".data = some (3 / 2) := by with_unfolding_all rfl
example : pythonFloat? "-2.5e-1".data = some (-(1 / 4)) := by with_unfolding_all rfl
example : pythonFloat? "1e".data = none := by with_unfolding_all rfl
example : pythonFloat? ".".data = none := by with_unfolding_all rfl

/-! ### Notification dispatcher (`schedule_tweet`, `send_tweet`) -/

/-- `MULTIPLES = [5, 10, 20, 50, 100]` (token_server.py:195). -/
def MULTIPLES : List ℕ := [5, 10, 20, 50, 100]

/-- `TWEET_INTERVAL = 10` seconds (token_server.py:196). -/
def TWEET_INTERVAL : ℚ := 10

/-- A job placed on the background scheduler by `schedule_tweet`: runs `send_tweet`
once at `runDate`.  The tweet text is a pure function of the token and tier,
so the job is identified by `(ca, tier)` instead of carrying the rendered
message. -/
structure Job where
  runDate : ℚ
  ca : String
  tier : ℕ
deriving DecidableEq, Repr

/-- `schedule_tweet` (token_server.py:198-214): reads the current time, adds
`delay_minutes` minutes, and places a one-shot job on the scheduler at that
target time.  It never invokes `send_tweet` itself. -/
def schedule_tweet (now : ℚ) (delayMinutes : ℚ) (ca : String) (tier : ℕ) : Job :=
  { runDate := now + delayMinutes * 60, ca := ca, tier := tier }

/-- Outcome of the Twitter POST inside `send_tweet`: a response status code or
a raised exception. -/
inductive PostOutcome where
  | resp (status : ℕ)
  | exn
deriving DecidableEq, Repr

/-- `send_tweet` (token_server.py:174-192): posts the text, returns `True` on
HTTP 201 and `False` on any other status or exception.  It touches no
database state and no scheduler state. -/
def send_tweet (o : PostOutcome) : Bool :=
  match o with
  | .resp status => if status = 201 then true else false
  | .exn => false

/-- Execution of a scheduled job by the background scheduler (a one-shot
`date` trigger): it calls `send_tweet` once and returns its result.  The
alert ledger and the pending-job list are inputs and are returned untouched:
`send_tweet` contains no database operation and no caller re-enqueues a
failed delivery. -/
def runScheduledJob (ledger : List (String × ℕ)) (pending : List Job)
    (_job : Job) (o : PostOutcome) : Bool × List (String × ℕ) × List Job :=
  (send_tweet o, ledger, pending)

/-! ### Monitoring loop (`monitor_token_price`, token_server.py:216-282)

The loop body is decomposed into one step per tier (`monitorTier`, the body
of the `for target_multiple in MULTIPLES` loop), one step per token
(`monitorToken`, the body of the `for token in tokens` loop) and one pass
over the token set (`monitorCycle`).  Wall-clock reads (`time.time()` /
`datetime.now()`) are modelled by an explicit clock stream `clock : ℕ → ℚ`
indexed by the number of reads made so far (`clockIdx`). -/

/-- State threaded through one polling pass of `monitor_token_price`:
the rows of the `multiple_alerts` table as `(ca, tier)` pairs, the
loop-local `last_tweet_time`, the clock read counter, and - as observable
outputs - the scheduled jobs of this pass, the `(ca, tier, detection time)`
triples for which `schedule_tweet` was invoked, and the triples skipped by
the `TWEET_INTERVAL` guard (`continue`, deferred to the next cycle). -/
structure LoopState where
  alerted : List (String × ℕ)
  lastTweetTime : ℚ
  clockIdx : ℕ
  scheduled : List (String × ℕ × ℚ)
  deferred : List (String × ℕ × ℚ)
  jobs : List Job
deriving DecidableEq, Repr

/-- One token of the active set, together with the external events of its
processing in this pass: the DexScreener fetch outcome, whether
`parse_dexscreener_data` succeeds on that data, whether the
`check_multiple_alerted` DB read raises for a given tier, and whether the
`record_multiple_alert` insert succeeds for a given tier. -/
structure TokenInput where
  ca : String
  token : String
  initial_mcap : ℚ
  fetch : Option DexData
  parseOk : Bool
  checkRaises : ℕ → Bool
  recordOk : ℕ → Bool

/-- Body of `for target_multiple in MULTIPLES` (token_server.py:248-269).
If the growth multiple reaches the tier and the tier is not yet alerted:
read the clock; if within `TWEET_INTERVAL` of `last_tweet_time`, `continue`
(deferred); otherwise re-parse the dex data and, on success, schedule the
tweet 30 minutes out, record the alert (ignoring the returned success flag)
and set `last_tweet_time` to a fresh clock read.  An exception from the
`check_multiple_alerted` read is caught by the per-tier handler and the loop
continues with the next tier. -/
def monitorTier (clock : ℕ → ℚ) (tok : TokenInput) (mult : ℚ)
    (s : LoopState) (t : ℕ) : LoopState :=
  if (t : ℚ) ≤ mult then
    if tok.checkRaises t then s
    else if (tok.ca, t) ∈ s.alerted then s
    else if clock s.clockIdx - s.lastTweetTime < TWEET_INTERVAL then
      { s with clockIdx := s.clockIdx + 1
               deferred := s.deferred ++ [(tok.ca, t, clock s.clockIdx)] }
    else if tok.parseOk then
      { alerted := if tok.recordOk t then s.alerted ++ [(tok.ca, t)] else s.alerted
        lastTweetTime := clock (s.clockIdx + 2)
        clockIdx := s.clockIdx + 3
        scheduled := s.scheduled ++ [(tok.ca, t, clock s.clockIdx)]
        deferred := s.deferred
        jobs := s.jobs ++ [schedule_tweet (clock (s.clockIdx + 1)) 30 tok.ca t] }
    else { s with clockIdx := s.clockIdx + 1 }
  else s

/-- Whether `db.add_price_record` persists a `price_history` row for this
token: it does exactly when a pair exists to read fields from; with no pair
its internal handler catches the index error and writes nothing
(db_operations.py:164-188). -/
def priceRecorded (tok : TokenInput) : Bool :=
  match tok.fetch with
  | some d => !d.pairs.isEmpty
  | none => false

/-- Body of `for token in tokens` (token_server.py:233-272).  A failed fetch
logs and `continue`s.  Afterwards `current_mcap = dex_data['pairs'][0]['fdv']`
raises (caught by the per-token handler) when there is no first pair or it
has no `fdv`; `multiple = current_mcap / token['initial_mcap']` raises when
the baseline is zero.  Otherwise the tier loop runs.  (The price-history
write touches a table the loop never reads; `priceRecorded` models it.) -/
def monitorToken (clock : ℕ → ℚ) (s : LoopState) (tok : TokenInput) : LoopState :=
  match tok.fetch with
  | none => s
  | some d =>
    match d.pairs with
    | [] => s
    | p :: _ =>
      match p.fdv with
      | none => s
      | some fdv =>
        if tok.initial_mcap = 0 then s
        else MULTIPLES.foldl (monitorTier clock tok (fdv / tok.initial_mcap)) s

/-- One full pass over the active token set (the body of the outer
`while True` up to the sleep, token_server.py:233-272). -/
def monitorCycle (clock : ℕ → ℚ) (s : LoopState) (toks : List TokenInput) : LoopState :=
  toks.foldl (monitorToken clock) s

/-- Initial per-pass instrumentation: no prior alerts recorded for the run,
`last_tweet_time = 0` as at `monitor_token_price` start. -/
def initialLoopState : LoopState :=
  { alerted := [], lastTweetTime := 0, clockIdx := 0
    scheduled := [], deferred := [], jobs := [] }

/-- A token input whose externals all succeed, used by concrete runs. -/
def plainToken (ca : String) (baseline fdv : ℚ) : TokenInput :=
  { ca := ca, token := ca, initial_mcap := baseline
    fetch := some { pairs := [{ fdv := some fdv }] }
    parseOk := true
    checkRaises := fun _ => false
    recordOk := fun _ => true }

/-! ### Branch characterizations of `monitorTier` -/

/-- A tier whose multiple is not reached leaves the state unchanged. -/
theorem monitorTier_not_reached (clock : ℕ → ℚ) (tok : TokenInput) (mult : ℚ)
    (s : LoopState) (t : ℕ) (h : ¬ (t : ℚ) ≤ mult) :
    monitorTier clock tok mult s t = s := by
  unfold monitorTier
  simp [h]

/-- An exception from the `check_multiple_alerted` read is caught by the
per-tier handler: the state is unchanged and the loop continues. -/
theorem monitorTier_checkRaises (clock : ℕ → ℚ) (tok : TokenInput) (mult : ℚ)
    (s : LoopState) (t : ℕ) (h : tok.checkRaises t = true) :
    monitorTier clock tok mult s t = s := by
  unfold monitorTier
  split_ifs <;> simp_all

/-- A tier already present in `multiple_alerts` is skipped. -/
theorem monitorTier_already_alerted (clock : ℕ → ℚ) (tok : TokenInput) (mult : ℚ)
    (s : LoopState) (t : ℕ) (h : (tok.ca, t) ∈ s.alerted) :
    monitorTier clock tok mult s t = s := by
  unfold monitorTier
  split_ifs <;> simp_all

/-- Deferral branch: an eligible tier arriving within `TWEET_INTERVAL` of the
last dispatch is skipped for this pass (`continue`) after one clock read. -/
theorem monitorTier_defer (clock : ℕ → ℚ) (tok : TokenInput) (mult : ℚ)
    (s : LoopState) (t : ℕ)
    (h1 : (t : ℚ) ≤ mult) (h2 : tok.checkRaises t = false)
    (h3 : (tok.ca, t) ∉ s.alerted)
    (h4 : clock s.clockIdx - s.lastTweetTime < TWEET_INTERVAL) :
    monitorTier clock tok mult s t =
      { s with clockIdx := s.clockIdx + 1
               deferred := s.deferred ++ [(tok.ca, t, clock s.clockIdx)] } := by
  unfold monitorTier
  simp [h1, h2, h3, h4]

/-- Firing branch: an eligible tier past the spacing gate, with parseable dex
data, schedules a tweet 30 minutes after the second clock read, appends the
ledger row when the insert succeeds, and moves `last_tweet_time` to the third
clock read. -/
theorem monitorTier_fire (clock : ℕ → ℚ) (tok : TokenInput) (mult : ℚ)
    (s : LoopState) (t : ℕ)
    (h1 : (t : ℚ) ≤ mult) (h2 : tok.checkRaises t = false)
    (h3 : (tok.ca, t) ∉ s.alerted)
    (h4 : ¬ clock s.clockIdx - s.lastTweetTime < TWEET_INTERVAL)
    (h5 : tok.parseOk = true) :
    monitorTier clock tok mult s t =
      { alerted := if tok.recordOk t then s.alerted ++ [(tok.ca, t)] else s.alerted
        lastTweetTime := clock (s.clockIdx + 2)
        clockIdx := s.clockIdx + 3
        scheduled := s.scheduled ++ [(tok.ca, t, clock s.clockIdx)]
        deferred := s.deferred
        jobs := s.jobs ++ [schedule_tweet (clock (s.clockIdx + 1)) 30 tok.ca t] } := by
  unfold monitorTier
  simp [h1, h2, h3, h4, h5]

/-- Parse-failure branch: `parse_dexscreener_data` returning `None` silently
drops the tier for this pass (neither scheduled, deferred nor recorded). -/
theorem monitorTier_parse_failed (clock : ℕ → ℚ) (tok : TokenInput) (mult : ℚ)
    (s : LoopState) (t : ℕ)
    (h1 : (t : ℚ) ≤ mult) (h2 : tok.checkRaises t = false)
    (h3 : (tok.ca, t) ∉ s.alerted)
    (h4 : ¬ clock s.clockIdx - s.lastTweetTime < TWEET_INTERVAL)
    (h5 : tok.parseOk = false) :
    monitorTier clock tok mult s t = { s with clockIdx := s.clockIdx + 1 } := by
  unfold monitorTier
  simp [h1, h2, h3, h4, h5]

/-! ### Monotonicity of the tier fold -/

theorem monitorTier_scheduled_mono (clock : ℕ → ℚ) (tok : TokenInput) (mult : ℚ)
    (s : LoopState) (t : ℕ) (x : String × ℕ × ℚ) (hx : x ∈ s.scheduled) :
    x ∈ (monitorTier clock tok mult s t).scheduled := by
  unfold monitorTier
  split_ifs <;> simp_all [List.mem_append]

theorem monitorTier_deferred_mono (clock : ℕ → ℚ) (tok : TokenInput) (mult : ℚ)
    (s : LoopState) (t : ℕ) (x : String × ℕ × ℚ) (hx : x ∈ s.deferred) :
    x ∈ (monitorTier clock tok mult s t).deferred := by
  unfold monitorTier
  split_ifs <;> simp_all [List.mem_append]

theorem monitorTiers_scheduled_mono (clock : ℕ → ℚ) (tok : TokenInput) (mult : ℚ)
    (tiers : List ℕ) (s : LoopState) (x : String × ℕ × ℚ) (hx : x ∈ s.scheduled) :
    x ∈ (tiers.foldl (monitorTier clock tok mult) s).scheduled := by
  induction tiers generalizing s with
  | nil => exact hx
  | cons a rest ih =>
    rw [List.foldl_cons]
    exact ih _ (monitorTier_scheduled_mono clock tok mult s a x hx)

theorem monitorTiers_deferred_mono (clock : ℕ → ℚ) (tok : TokenInput) (mult : ℚ)
    (tiers : List ℕ) (s : LoopState) (x : String × ℕ × ℚ) (hx : x ∈ s.deferred) :
    x ∈ (tiers.foldl (monitorTier clock tok mult) s).deferred := by
  induction tiers generalizing s with
  | nil => exact hx
  | cons a rest ih =>
    rw [List.foldl_cons]
    exact ih _ (monitorTier_deferred_mono clock tok mult s a x hx)

/-- The alert ledger grows only together with the scheduled list: any row in
the ledger after a tier step was there before, or its tier was scheduled by
the step. -/
theorem monitorTier_alerted_sub (clock : ℕ → ℚ) (tok : TokenInput) (mult : ℚ)
    (s : LoopState) (t : ℕ) (x : String × ℕ)
    (hx : x ∈ (monitorTier clock tok mult s t).alerted) :
    x ∈ s.alerted ∨ ∃ y, (x.1, x.2, y) ∈ (monitorTier clock tok mult s t).scheduled := by
  unfold monitorTier at hx ⊢
  split_ifs at hx ⊢
  all_goals try exact Or.inl hx
  all_goals rcases List.mem_append.mp hx with h | h
  all_goals try exact Or.inl h
  all_goals rw [List.mem_singleton] at h
  all_goals subst h
  all_goals exact Or.inr ⟨clock s.clockIdx, List.mem_append.mpr (Or.inr (by simp))⟩

/-- Where a scheduled entry can come from: it was already scheduled, or it is
this token's tier `t`, the multiple reached it and the dex data parsed. -/
theorem monitorTier_scheduled_src (clock : ℕ → ℚ) (tok : TokenInput) (mult : ℚ)
    (s : LoopState) (t : ℕ) (x : String × ℕ × ℚ)
    (hx : x ∈ (monitorTier clock tok mult s t).scheduled) :
    x ∈ s.scheduled ∨
      (x.1 = tok.ca ∧ x.2.1 = t ∧ (t : ℚ) ≤ mult ∧ tok.parseOk = true) := by
  unfold monitorTier at hx
  split_ifs at hx with h1 h2 h3 h4 h5
  all_goals try exact Or.inl hx
  all_goals rcases List.mem_append.mp hx with h | h
  all_goals try exact Or.inl h
  all_goals rw [List.mem_singleton] at h
  all_goals subst h
  all_goals exact Or.inr ⟨rfl, rfl, h1, h5⟩

theorem monitorTiers_scheduled_src (clock : ℕ → ℚ) (tok : TokenInput) (mult : ℚ)
    (tiers : List ℕ) (s : LoopState) (x : String × ℕ × ℚ)
    (hx : x ∈ (tiers.foldl (monitorTier clock tok mult) s).scheduled) :
    x ∈ s.scheduled ∨
      (x.1 = tok.ca ∧ x.2.1 ∈ tiers ∧ (x.2.1 : ℚ) ≤ mult ∧ tok.parseOk = true) := by
  induction tiers generalizing s with
  | nil => exact Or.inl hx
  | cons a rest ih =>
    rw [List.foldl_cons] at hx
    rcases ih _ hx with h | h
    · rcases monitorTier_scheduled_src clock tok mult s a x h with h | h
      · exact Or.inl h
      · exact Or.inr ⟨h.1, by simp [h.2.1], h.2.1 ▸ h.2.2.1, h.2.2.2⟩
    · exact Or.inr ⟨h.1, List.mem_cons_of_mem a h.2.1, h.2.2⟩

/-- Every eligible tier (reached, not raising, with parseable dex data) ends
the pass already-alerted, scheduled or deferred - it is never silently
skipped past. -/
theorem monitorTiers_coverage (clock : ℕ → ℚ) (tok : TokenInput) (mult : ℚ)
    (tiers : List ℕ) (s : LoopState) (t : ℕ)
    (hp : tok.parseOk = true) (ht : t ∈ tiers) (hm : (t : ℚ) ≤ mult)
    (hr : tok.checkRaises t = false) :
    (tok.ca, t) ∈ s.alerted ∨
      (∃ y, (tok.ca, t, y) ∈ (tiers.foldl (monitorTier clock tok mult) s).scheduled) ∨
      (∃ y, (tok.ca, t, y) ∈ (tiers.foldl (monitorTier clock tok mult) s).deferred) := by
  induction tiers generalizing s with
  | nil => cases ht
  | cons a rest ih =>
    rw [List.foldl_cons]
    rcases List.mem_cons.mp ht with rfl | htr
    · by_cases ha : (tok.ca, t) ∈ s.alerted
      · exact Or.inl ha
      · by_cases hd : clock s.clockIdx - s.lastTweetTime < TWEET_INTERVAL
        · refine Or.inr (Or.inr ⟨clock s.clockIdx, ?_⟩)
          refine monitorTiers_deferred_mono clock tok mult rest _ _ ?_
          rw [monitorTier_defer clock tok mult s t hm (by rw [hr]) ha hd]
          simp
        · refine Or.inr (Or.inl ⟨clock s.clockIdx, ?_⟩)
          refine monitorTiers_scheduled_mono clock tok mult rest _ _ ?_
          rw [monitorTier_fire clock tok mult s t hm (by rw [hr]) ha hd hp]
          simp
    · rcases ih (monitorTier clock tok mult s a) htr with h | h | h
      · rcases monitorTier_alerted_sub clock tok mult s a (tok.ca, t) h with h | ⟨y, hy⟩
        · exact Or.inl h
        · exact Or.inr (Or.inl ⟨y, monitorTiers_scheduled_mono clock tok mult rest _ _ hy⟩)
      · exact Or.inr (Or.inl h)
      · exact Or.inr (Or.inr h)

/-! ### Failure isolation of `monitorToken` -/

/-- A failed DexScreener fetch: log and `continue` - nothing changes. -/
theorem monitorToken_fetch_failed (clock : ℕ → ℚ) (s : LoopState)
    (tok : TokenInput) (h : tok.fetch = none) :
    monitorToken clock s tok = s := by
  unfold monitorToken
  rw [h]

/-- No pairs in the snapshot: `dex_data['pairs'][0]` raises, the per-token
handler catches, nothing changes. -/
theorem monitorToken_no_pairs (clock : ℕ → ℚ) (s : LoopState)
    (tok : TokenInput) (d : DexData) (h : tok.fetch = some d)
    (hp : d.pairs = []) :
    monitorToken clock s tok = s := by
  simp only [monitorToken, h, hp]

/-- First pair without an `fdv` key: `pair['fdv']` raises, the per-token
handler catches, nothing changes. -/
theorem monitorToken_no_fdv (clock : ℕ → ℚ) (s : LoopState)
    (tok : TokenInput) (d : DexData) (p : DexPair) (ps : List DexPair)
    (h : tok.fetch = some d) (hp : d.pairs = p :: ps) (hf : p.fdv = none) :
    monitorToken clock s tok = s := by
  simp only [monitorToken, h, hp, hf]

/-- Zero baseline: `current_mcap / token['initial_mcap']` raises
`ZeroDivisionError`, the per-token handler catches, nothing changes. -/
theorem monitorToken_zero_baseline (clock : ℕ → ℚ) (s : LoopState)
    (tok : TokenInput) (d : DexData) (p : DexPair) (ps : List DexPair)
    (fdv : ℚ) (h : tok.fetch = some d) (hp : d.pairs = p :: ps)
    (hf : p.fdv = some fdv) (hz : tok.initial_mcap = 0) :
    monitorToken clock s tok = s := by
  simp only [monitorToken, h, hp, hf, hz, if_pos]

/-- Removing a token whose processing is a no-op from anywhere in the cycle
changes nothing: the tokens after it are fetched, evaluated and alerted
exactly as if it were absent. -/
theorem monitorCycle_skip (clock : ℕ → ℚ) (s : LoopState) (tok : TokenInput)
    (pre post : List TokenInput)
    (h : ∀ s' : LoopState, monitorToken clock s' tok = s') :
    monitorCycle clock s (pre ++ tok :: post) = monitorCycle clock s (pre ++ post) := by
  unfold monitorCycle
  rw [List.foldl_append, List.foldl_append, List.foldl_cons, h]

/-! ### The dispatcher spacing invariant (minimum `TWEET_INTERVAL` between
detection-time decisions that schedule a send) -/

/-- The wall clock yields non-decreasing values across successive reads. -/
def MonoClock (clock : ℕ → ℚ) : Prop := ∀ i j : ℕ, i ≤ j → clock i ≤ clock j

/-- Invariant: every scheduled entry's detection time is at most
`last_tweet_time`, and detection times of successive scheduled entries are at
least `TWEET_INTERVAL` apart. -/
def SchedInv (s : LoopState) : Prop :=
  (∀ e ∈ s.scheduled, e.2.2 ≤ s.lastTweetTime) ∧
    s.scheduled.Pairwise (fun a b => a.2.2 + TWEET_INTERVAL ≤ b.2.2)

/-- Auxiliary step for the spacing invariant: the state produced by the
firing branch of `monitorTier` satisfies `SchedInv` again. -/
theorem schedInv_fire_aux (clock : ℕ → ℚ) (s : LoopState) (hc : MonoClock clock)
    (h : SchedInv s) (h4 : ¬ clock s.clockIdx - s.lastTweetTime < TWEET_INTERVAL)
    (al : List (String × ℕ)) (df : List (String × ℕ × ℚ)) (jb : List Job)
    (ca : String) (t : ℕ) :
    SchedInv { alerted := al, lastTweetTime := clock (s.clockIdx + 2)
               clockIdx := s.clockIdx + 3
               scheduled := s.scheduled ++ [(ca, t, clock s.clockIdx)]
               deferred := df, jobs := jb } := by
  have h41 := not_lt.mp h4
  have hm2 := hc s.clockIdx (s.clockIdx + 2) (Nat.le_add_right _ 2)
  have hTW : (0 : ℚ) < TWEET_INTERVAL := by norm_num [TWEET_INTERVAL]
  constructor
  · intro e he
    simp only at he ⊢
    rcases List.mem_append.mp he with he | he
    · have h0 := h.1 e he
      linarith
    · rw [List.mem_singleton] at he
      subst he
      exact hm2
  · simp only
    refine List.pairwise_append.mpr ⟨h.2, by simp, ?_⟩
    intro a ha b hb
    rw [List.mem_singleton] at hb
    subst hb
    have h0 := h.1 a ha
    simp only
    linarith

theorem monitorTier_schedInv (clock : ℕ → ℚ) (tok : TokenInput) (mult : ℚ)
    (s : LoopState) (t : ℕ) (hc : MonoClock clock) (h : SchedInv s) :
    SchedInv (monitorTier clock tok mult s t) := by
  unfold monitorTier
  split_ifs with h1 h2 h3 h4 h5 h6
  all_goals try exact h
  all_goals exact schedInv_fire_aux clock s hc h h4 _ _ _ tok.ca t

theorem monitorTiers_schedInv (clock : ℕ → ℚ) (tok : TokenInput) (mult : ℚ)
    (tiers : List ℕ) (s : LoopState) (hc : MonoClock clock) (h : SchedInv s) :
    SchedInv (tiers.foldl (monitorTier clock tok mult) s) := by
  induction tiers generalizing s with
  | nil => exact h
  | cons a rest ih =>
    rw [List.foldl_cons]
    exact ih _ (monitorTier_schedInv clock tok mult s a hc h)

theorem monitorToken_schedInv (clock : ℕ → ℚ) (s : LoopState)
    (tok : TokenInput) (hc : MonoClock clock) (h : SchedInv s) :
    SchedInv (monitorToken clock s tok) := by
  unfold monitorToken
  rcases hfe : tok.fetch with _ | d
  · exact h
  · simp only [hfe]
    rcases hps : d.pairs with _ | ⟨p, ps⟩
    · exact h
    · simp only [hps]
      rcases hfv : p.fdv with _ | fdv
      · exact h
      · simp only [hfv]
        by_cases hz : tok.initial_mcap = 0
        · rw [if_pos hz]
          exact h
        · rw [if_neg hz]
          exact monitorTiers_schedInv clock tok _ MULTIPLES s hc h

theorem monitorCycle_schedInv (clock : ℕ → ℚ) (s : LoopState)
    (toks : List TokenInput) (hc : MonoClock clock) (h : SchedInv s) :
    SchedInv (monitorCycle clock s toks) := by
  unfold monitorCycle
  induction toks generalizing s with
  | nil => exact h
  | cons tok rest ih =>
    rw [List.foldl_cons]
    exact ih _ (monitorToken_schedInv clock s tok hc h)

/-! ### The `multiple_alerts` table (`db_operations.init_db`,
`record_multiple_alert`, `check_multiple_alerted`) -/

/-- The column list of `multiple_alerts` as created by `init_db`
(db_operations.py:26-33): `ca`, `multiple`, `alert_time`, with primary key
`(ca, multiple)`. -/
def initMultipleAlertsColumns : List String := ["ca", "multiple", "alert_time"]

/-- The column list named by the INSERT inside `record_multiple_alert`
(db_operations.py:154-157). -/
def recordInsertColumns : List String := ["ca", "multiple", "max_market_cap"]

/-- A SQLite `multiple_alerts` table: its declared columns and its rows
`(ca, multiple, max_market_cap)`. -/
structure AlertsTable where
  columns : List String
  rows : List (String × ℤ × ℚ)
deriving DecidableEq, Repr

/-- SQLite semantics of the INSERT issued by `record_multiple_alert`: an
error if a named column does not exist in the table, an error if the
`(ca, multiple)` primary key is already present (UNIQUE constraint), and
otherwise one appended row. -/
def sqlInsertMultipleAlert (tbl : AlertsTable) (ca : String) (mult : ℤ)
    (mcap : ℚ) : Except String AlertsTable :=
  if !(recordInsertColumns.all (fun c => tbl.columns.contains c)) then
    Except.error "table multiple_alerts has no column named max_market_cap"
  else if tbl.rows.any (fun r => r.1 == ca && r.2.1 == mult) then
    Except.error "UNIQUE constraint failed: multiple_alerts.ca, multiple_alerts.multiple"
  else
    Except.ok { tbl with rows := tbl.rows ++ [(ca, mult, mcap)] }

/-- `record_multiple_alert` (db_operations.py:150-162): run the INSERT; any
exception is caught, printed, and turned into a `False` return with the
table unchanged (no commit happened). -/
def record_multiple_alert (tbl : AlertsTable) (ca : String) (mult : ℤ)
    (mcap : ℚ) : Bool × AlertsTable :=
  match sqlInsertMultipleAlert tbl ca mult mcap with
  | Except.ok t => (true, t)
  | Except.error _ => (false, tbl)

/-- `check_multiple_alerted` (db_operations.py:141-148): existence check on
the `(ca, multiple)` key. -/
def check_multiple_alerted (tbl : AlertsTable) (ca : String) (mult : ℤ) : Bool :=
  tbl.rows.any (fun r => r.1 == ca && r.2.1 == mult)

/-- The empty `multiple_alerts` table of a database freshly created by
`init_db`. -/
def freshMultipleAlerts : AlertsTable :=
  { columns := initMultipleAlertsColumns, rows := [] }

/-- The same table with the `max_market_cap` column the rest of the code
base expects (`record_multiple_alert` writes it and
`stats_analyzer.get_24h_stats` reads `ma.max_market_cap`). -/
def intendedMultipleAlerts : AlertsTable :=
  { columns := initMultipleAlertsColumns ++ ["max_market_cap"], rows := [] }

/-! ### The `monitored_tokens` table and the ingestion endpoint
(`db_operations.add_token`, `get_all_tokens`; `token_server.receive_token`) -/

/-- One row of `monitored_tokens`.  `received_time` is stored as text and
compared through SQLite's `datetime()`; it is modelled as the instant the
text denotes (`none` when `datetime()` cannot parse it and yields NULL). -/
structure TokenRow where
  ca : String
  token : String
  initial_mcap : ℚ
  received_time : Option ℚ
  sourceType : String
deriving DecidableEq, Repr

/-- `add_token` (db_operations.py:72-92): insert only when no row with this
`ca` exists; returns whether a row was inserted. -/
def add_token (db : List TokenRow) (token ca : String) (initial_mcap : ℚ)
    (received_time : Option ℚ) (sourceType : String) : Bool × List TokenRow :=
  if db.any (fun r => r.ca == ca) then (false, db)
  else (true, db ++ [{ ca := ca, token := token, initial_mcap := initial_mcap
                       received_time := received_time, sourceType := sourceType }])

/-- The monitoring window of `get_all_tokens`: 72 hours, in seconds. -/
def WINDOW_SECONDS : ℚ := 72 * 3600

/-- The value of `datetime('now', '-72 hours')` used by `get_all_tokens`. -/
def windowCutoff (now : ℚ) : ℚ := now - WINDOW_SECONDS

/-- `get_all_tokens` (db_operations.py:94-104): rows whose
`datetime(received_time)` is strictly later than the cutoff; a NULL
(unparseable) `received_time` compares as false and is excluded. -/
def get_all_tokens (cutoff : ℚ) (db : List TokenRow) : List TokenRow :=
  db.filter (fun r =>
    match r.received_time with
    | some rt => decide (cutoff < rt)
    | none => false)

/-- The fields of the HTTP body of `/receive_token` that the persistence
path reads.  `date` is the client-supplied `data.date` string, modelled (as
in `TokenRow`) by the instant it denotes. -/
structure TokenData where
  token : String
  ca : String
  marketCap : String
  date : Option ℚ
  sourceType : String

/-- The JSON response of `/receive_token` on its non-exception paths,
restricted to the fields the claims mention, plus the resulting table. -/
structure RecvResult where
  status : String
  initial_mcap : Option ℚ
  db : List TokenRow
deriving DecidableEq, Repr

/-- `receive_token` (token_server.py:315-366): error responses when the
DexScreener fetch or parse fails (no DB change); otherwise parse the
market-cap string, insert the token only when the parsed value is positive,
and answer `success` carrying the parsed value.  The OKX quote recording
touches only `purchase_records` and is omitted here. -/
def receive_token (db : List TokenRow) (data : TokenData)
    (fetchOk parseDexOk : Bool) : RecvResult :=
  if fetchOk = false then { status := "error", initial_mcap := none, db := db }
  else if parseDexOk = false then { status := "error", initial_mcap := none, db := db }
  else
    let mcap := parse_market_cap data.marketCap
    let db2 := if 0 < mcap then
        (add_token db data.token data.ca mcap data.date data.sourceType).2
      else db
    { status := "success", initial_mcap := some mcap, db := db2 }

/-- States of `monitored_tokens` reachable in the running system: the table
starts empty (`init_db` creates it bare) and `receive_token` is the only
code path that inserts into it. -/
inductive ReachableDB : List TokenRow → Prop
  | init : ReachableDB []
  | recv (db : List TokenRow) (data : TokenData) (fetchOk parseDexOk : Bool) :
      ReachableDB db → ReachableDB (receive_token db data fetchOk parseDexOk).db

/-- Invariant: every row of a reachable `monitored_tokens` table has a
strictly positive baseline, because `receive_token` gates the insert on
`mcap > 0`. -/
theorem reachableDB_pos (db : List TokenRow) (h : ReachableDB db) :
    ∀ r ∈ db, 0 < r.initial_mcap := by
  induction h with
  | init => intro r hr; cases hr
  | recv db data fetchOk parseDexOk _ ih =>
    intro r hr
    unfold receive_token at hr
    split_ifs at hr with hf hp
    · exact ih r hr
    · exact ih r hr
    · simp only at hr
      split_ifs at hr with hpos
      · unfold add_token at hr
        split_ifs at hr with hdup
        · exact ih r hr
        · simp only at hr
          rcases List.mem_append.mp hr with hr | hr
          · exact ih r hr
          · rw [List.mem_singleton] at hr
            subst hr
            exact hpos
      · exact ih r hr

/-! ## Claim theorems -/

/-- C1 (code_bug evidence): `init_db` creates `multiple_alerts` without the
`max_market_cap` column that `record_multiple_alert` INSERTs into (and that
`stats_analyzer.get_24h_stats` reads).  On a database freshly created by
`init_db` the insert therefore raises `no such column`, the handler swallows
it and returns `False`, and zero rows persist - both on the first call and on
the repeat call - contradicting the claim that exactly one row carrying the
observed market cap is persisted.  On the intended schema (with the column),
the behaviour the claim describes does hold: the first call persists exactly
one row with the market cap and the duplicate is rejected by the primary key
and reported as a benign `False`. -/
theorem c1_record_alert_fresh_schema_persists_nothing :
    record_multiple_alert freshMultipleAlerts "CA1" 5 5000 =
      (false, freshMultipleAlerts) ∧
    (record_multiple_alert
        (record_multiple_alert freshMultipleAlerts "CA1" 5 5000).2
        "CA1" 5 5000).2.rows = [] ∧
    check_multiple_alerted
        (record_multiple_alert freshMultipleAlerts "CA1" 5 5000).2 "CA1" 5 = false ∧
    record_multiple_alert intendedMultipleAlerts "CA1" 5 5000 =
      (true, { intendedMultipleAlerts with rows := [("CA1", 5, 5000)] }) ∧
    record_multiple_alert
        (record_multiple_alert intendedMultipleAlerts "CA1" 5 5000).2
        "CA1" 5 5000 =
      (false, { intendedMultipleAlerts with rows := [("CA1", 5, 5000)] }) := by
  refine ⟨?_, ?_, ?_, ?_, ?_⟩ <;> with_unfolding_all rfl

/-- C8: `fetch_dexscreener_data` never raises: it returns the parsed JSON
snapshot exactly on an HTTP 200 whose body parses, returns `None` on every
non-200 status and on a network/timeout exception (and on an unparseable 200
body), and issues its request with the fixed 10-second timeout. -/
theorem c8_fetch_never_raises (tokenAddress : String) (o : HttpOutcome)
    (d : DexData) :
    (fetch_dexscreener_data o = some d ↔ o = HttpOutcome.resp 200 (some d)) ∧
    fetch_dexscreener_data HttpOutcome.netExn = none ∧
    (∀ (status : ℕ) (body : Option DexData), status ≠ 200 →
      fetch_dexscreener_data (HttpOutcome.resp status body) = none) ∧
    (dexscreenerRequest tokenAddress).timeout = 10 := by
  refine ⟨?_, rfl, ?_, rfl⟩
  · cases o with
    | resp st b =>
      by_cases hst : st = 200
      · subst hst
        simp [fetch_dexscreener_data]
      · simp [fetch_dexscreener_data, hst]
    | netExn => simp [fetch_dexscreener_data]
  · intro status body h
    simp [fetch_dexscreener_data, h]

/-- C8 witness: a 404 response and a network exception are reported as
unavailable, and the request timeout is 10 seconds. -/
theorem c8_fetch_never_raises_witness :
    fetch_dexscreener_data (HttpOutcome.resp 404 none) = none ∧
    fetch_dexscreener_data HttpOutcome.netExn = none ∧
    (dexscreenerRequest "So11111111111111111111111111111111111111112").timeout = 10 :=
  ⟨(c8_fetch_never_raises "So11111111111111111111111111111111111111112"
      HttpOutcome.netExn ⟨[]⟩).2.2.1 404 none (by decide),
   (c8_fetch_never_raises "So11111111111111111111111111111111111111112"
      HttpOutcome.netExn ⟨[]⟩).2.1,
   (c8_fetch_never_raises "So11111111111111111111111111111111111111112"
      HttpOutcome.netExn ⟨[]⟩).2.2.2⟩

/-- C9: `parse_market_cap` always strips the final character before numeric
conversion and treats it as a unit: whenever the remainder parses as a float,
the result is that number times the K/M/B factor of the (uppercased) final
character and times 1 for any other final character - so a plain numeric
string loses its last digit, `parse_market_cap "900" = 90`, not `900`; and
whenever the remainder does not parse as a float the result is `0`. -/
theorem c9_parse_market_cap_strips_last_char :
    (∀ (cs : List Char) (q : ℚ) (c : Char), pythonFloat? cs = some q →
      parse_market_cap (String.mk (cs ++ [c])) = q * unitMultiplier c) ∧
    (∀ cs : List Char, pythonFloat? cs.dropLast = none →
      parse_market_cap (String.mk cs) = 0) ∧
    parse_market_cap "900" = 90 ∧ parse_market_cap "900" ≠ 900 ∧
    parse_market_cap "1.5K" = 1500 ∧ parse_market_cap "2m" = 2000000 ∧
    parse_market_cap "3B" = 3000000000 ∧ parse_market_cap "junk" = 0 := by
  refine ⟨?_, ?_, by with_unfolding_all rfl, by with_unfolding_all decide,
    by with_unfolding_all rfl, by with_unfolding_all rfl,
    by with_unfolding_all rfl, by with_unfolding_all rfl⟩
  · intro cs q c h
    show parseMcapChars (cs ++ [c]) = q * unitMultiplier c
    unfold parseMcapChars
    rw [List.getLast?_concat, List.dropLast_concat, h]
  · intro cs h
    show parseMcapChars cs = 0
    unfold parseMcapChars
    rcases hl : cs.getLast? with _ | last
    · rfl
    · rw [h]

/-- C9 witness: the unit rule at `"90" ++ "0"` and the unparseable rule at
`"x"`. -/
theorem c9_parse_market_cap_strips_last_char_witness :
    parse_market_cap (String.mk (['9', '0'] ++ ['0'])) = 90 * unitMultiplier '0' ∧
    parse_market_cap (String.mk ['x']) = 0 :=
  ⟨c9_parse_market_cap_strips_last_char.1 ['9', '0'] 90 '0'
      (by with_unfolding_all rfl),
   c9_parse_market_cap_strips_last_char.2.1 ['x'] (by with_unfolding_all rfl)⟩

/-- C4: every token returned by the active-token loader from a reachable
`monitored_tokens` table has a strictly positive (hence nonzero) baseline -
`receive_token` inserts only when the parsed market cap is positive - and a
parseable `received_time` inside the trailing 72-hour window, so the
monitoring loop's `current_mcap / initial_mcap` never divides by zero or a
non-positive baseline for tokens of the active set. -/
theorem c4_active_set_positive_baseline (db : List TokenRow)
    (h : ReachableDB db) (now : ℚ) (r : TokenRow)
    (hr : r ∈ get_all_tokens (windowCutoff now) db) :
    0 < r.initial_mcap ∧ r.initial_mcap ≠ 0 ∧
      ∃ rt, r.received_time = some rt ∧ now - WINDOW_SECONDS < rt := by
  have hmem : r ∈ db := List.mem_of_mem_filter hr
  have hpos := reachableDB_pos db h r hmem
  refine ⟨hpos, ne_of_gt hpos, ?_⟩
  have hp := List.of_mem_filter hr
  rcases hrt : r.received_time with _ | rt
  · rw [hrt] at hp
    simp at hp
  · rw [hrt] at hp
    simp only [decide_eq_true_eq] at hp
    exact ⟨rt, rfl, hp⟩

/-- The ingestion request used by the C4 witness (market cap `"900"`, which
`parse_market_cap` reads as `90`). -/
def c4data : TokenData :=
  { token := "TOK", ca := "CA1", marketCap := "900", date := some 1000
    sourceType := "tg" }

/-- The table after ingesting `c4data` into an empty database. -/
def c4db : List TokenRow := (receive_token [] c4data true true).db

/-- The row `receive_token` inserts for `c4data`. -/
def c4row : TokenRow :=
  { ca := "CA1", token := "TOK", initial_mcap := 90
    received_time := some 1000, sourceType := "tg" }

/-- C4 witness: a concrete reachable table with one ingested token, polled at
`now = 1500`. -/
theorem c4_active_set_positive_baseline_witness :
    0 < c4row.initial_mcap ∧ c4row.initial_mcap ≠ 0 ∧
      ∃ rt, c4row.received_time = some rt ∧ (1500 : ℚ) - WINDOW_SECONDS < rt :=
  c4_active_set_positive_baseline c4db
    (ReachableDB.recv [] c4data true true ReachableDB.init) 1500 c4row
    (by with_unfolding_all decide)

/-- C10 counterexample: the market-cap string `"-5K"` parses to
`-5000 ≤ 0`; `receive_token` answers `success` and inserts nothing, but the
reported `initial_mcap` is `-5000.0`, not `0.0` as the claim states. -/
theorem c10_counterexample :
    parse_market_cap "-5K" = -5000 ∧
    receive_token []
        { token := "TOK", ca := "CA1", marketCap := "-5K", date := some 1000
          sourceType := "tg" } true true =
      { status := "success", initial_mcap := some (-5000), db := [] } ∧
    (-5000 : ℚ) ≤ 0 ∧ (-5000 : ℚ) ≠ 0 := by
  refine ⟨by with_unfolding_all rfl, by with_unfolding_all rfl, by norm_num, by norm_num⟩

/-- C10 amended: if the submitted marketCap string parses to a value `≤ 0`
(including every unparseable string, which parses to `0.0`), `receive_token`
still returns status `success` - reporting the parsed value as
`initial_mcap` - but never inserts the token into `monitored_tokens`, so the
token is never polled, sampled or alerted. -/
theorem c10_nonpositive_mcap_not_inserted (db : List TokenRow)
    (data : TokenData) (h : parse_market_cap data.marketCap ≤ 0) :
    receive_token db data true true =
      { status := "success"
        initial_mcap := some (parse_market_cap data.marketCap), db := db } ∧
    (∀ cs : List Char, pythonFloat? cs.dropLast = none →
      parse_market_cap (String.mk cs) = 0) := by
  constructor
  · have hnot : ¬ 0 < parse_market_cap data.marketCap := not_lt.mpr h
    simp [receive_token, hnot]
  · intro cs hcs
    show parseMcapChars cs = 0
    unfold parseMcapChars
    rcases hl : cs.getLast? with _ | last
    · rfl
    · rw [hcs]

/-- C10 amended witness: the unparseable string `"x"` parses to `0`, is
reported back as `initial_mcap 0`, and the table stays empty. -/
theorem c10_nonpositive_mcap_not_inserted_witness :
    receive_token []
        { token := "TOK", ca := "CA1", marketCap := "x", date := some 1000
          sourceType := "tg" } true true =
      { status := "success"
        initial_mcap := some (parse_market_cap "x"), db := [] } :=
  (c10_nonpositive_mcap_not_inserted []
      { token := "TOK", ca := "CA1", marketCap := "x", date := some 1000
        sourceType := "tg" }
      (by with_unfolding_all decide)).1

/-! ### The tier-loop claims (C2, C3, C5, C6, C7) -/

/-- Whether a tweet for `(ca, t)` was scheduled in the recorded pass. -/
def tierScheduled (s : LoopState) (ca : String) (t : ℕ) : Bool :=
  s.scheduled.any (fun e => e.1 == ca && e.2.1 == t)

/-- The single evaluation of the C2 scenario: baseline 100, current market
cap 2500, no prior alerts, all clock reads within the same second. -/
def c2run : LoopState :=
  monitorToken (fun _ => 1000) initialLoopState (plainToken "CA" 100 2500)

/-- C2 counterexample: in the spec's own scenario (baseline 100, current
2500, no prior alerts) tier 10 is eligible - the multiple 25 reaches it and
it is not alerted - yet the evaluation neither schedules nor records it,
because the `TWEET_INTERVAL` guard defers it after tier 5 fires. -/
theorem c2_counterexample :
    (10 : ℕ) ∈ MULTIPLES ∧ (10 : ℚ) ≤ 2500 / 100 ∧
    ("CA", 10) ∉ initialLoopState.alerted ∧
    tierScheduled c2run "CA" 10 = false ∧ ("CA", 10) ∉ c2run.alerted := by
  with_unfolding_all decide

/-- C2 amended: eligible tiers are examined in ascending order, but within
one evaluation a tier is scheduled and recorded only if its detection passes
the `TWEET_INTERVAL` spacing gate; eligible tiers checked within the
interval of the tier just scheduled are deferred to the next polling cycle.
For baseline 100 and current 2500 with no prior alerts and all checks within
one second: tier 5 is scheduled and recorded, tiers 10 and 20 are deferred,
tiers 50 and 100 are not reached. -/
theorem c2_only_first_eligible_tier_fires :
    c2run =
      { alerted := [("CA", 5)], lastTweetTime := 1000, clockIdx := 5
        scheduled := [("CA", 5, 1000)]
        deferred := [("CA", 10, 1000), ("CA", 20, 1000)]
        jobs := [{ runDate := 2800, ca := "CA", tier := 5 }] } := by
  with_unfolding_all rfl

/-- Clock of the C3 counterexample: the tier-5 check happens 5 s after the
last dispatch, the tier-10 check 11 s after it. -/
def c3clock : ℕ → ℚ := fun i => if i = 0 then 105 else 111

/-- The C3 evaluation: last dispatch at 100, baseline 100, current 2500. -/
def c3run : LoopState :=
  monitorToken c3clock { initialLoopState with lastTweetTime := 100 }
    (plainToken "CA" 100 2500)

/-- C3 counterexample: with the tier-5 check 5 s after the previous dispatch
(deferred by spacing) and the tier-10 check 11 s after it (past the gate),
tier 10 is newly scheduled and recorded while tier 5 is neither previously
alerted nor newly crossed - the evaluation skips past the lower tier. -/
theorem c3_counterexample :
    (5 : ℕ) ∈ MULTIPLES ∧ (10 : ℕ) ∈ MULTIPLES ∧ 5 < 10 ∧
    tierScheduled c3run "CA" 10 = true ∧ ("CA", 10) ∈ c3run.alerted ∧
    ("CA", 5) ∉ ({ initialLoopState with lastTweetTime := 100 } : LoopState).alerted ∧
    tierScheduled c3run "CA" 5 = false ∧ ("CA", 5) ∉ c3run.alerted := by
  with_unfolding_all decide

/-- C3 amended: for tiers `t1 < t2` of `MULTIPLES`, if `t2` is newly
scheduled in an evaluation of a token (started with fresh per-pass
instrumentation) and the ledger check for `t1` does not raise, then `t1` was
already alerted before the evaluation, or `t1` is also newly scheduled in
it, or `t1` was deferred to the next cycle by the dispatcher spacing gate. -/
theorem c3_no_silent_skip (clock : ℕ → ℚ) (s : LoopState) (tok : TokenInput)
    (t1 t2 : ℕ) (ht1 : t1 ∈ MULTIPLES) (hlt : t1 < t2)
    (hs : s.scheduled = []) (hr1 : tok.checkRaises t1 = false) (y : ℚ)
    (hy : (tok.ca, t2, y) ∈ (monitorToken clock s tok).scheduled) :
    (tok.ca, t1) ∈ s.alerted ∨
      (∃ z, (tok.ca, t1, z) ∈ (monitorToken clock s tok).scheduled) ∨
      (∃ z, (tok.ca, t1, z) ∈ (monitorToken clock s tok).deferred) := by
  unfold monitorToken at hy ⊢
  rcases hfe : tok.fetch with _ | d
  · rw [hfe] at hy
    rw [hs] at hy
    cases hy
  · simp only [hfe] at hy ⊢
    rcases hps : d.pairs with _ | ⟨p, ps⟩
    · simp only [hps] at hy ⊢
      rw [hs] at hy
      cases hy
    · simp only [hps] at hy ⊢
      rcases hfv : p.fdv with _ | fdv
      · simp only [hfv] at hy ⊢
        rw [hs] at hy
        cases hy
      · simp only [hfv] at hy ⊢
        by_cases hz : tok.initial_mcap = 0
        · rw [if_pos hz] at hy
          rw [hs] at hy
          cases hy
        · rw [if_neg hz] at hy ⊢
          rcases monitorTiers_scheduled_src clock tok _ MULTIPLES s _ hy
            with hsy | ⟨_, _, hm2, hp⟩
          · rw [hs] at hsy
            cases hsy
          · have hm1 : (t1 : ℚ) ≤ fdv / tok.initial_mcap :=
              le_trans (by exact_mod_cast le_of_lt hlt) hm2
            exact monitorTiers_coverage clock tok _ MULTIPLES s t1 hp ht1 hm1 hr1

/-- C3 amended witness: tier 5 already alerted, tier 10 newly scheduled. -/
theorem c3_no_silent_skip_witness :
    ("CA", 5) ∈ ({ initialLoopState with alerted := [("CA", 5)] } : LoopState).alerted ∨
      (∃ z, ("CA", 5, z) ∈ (monitorToken (fun _ => 1000)
        { initialLoopState with alerted := [("CA", 5)] }
        (plainToken "CA" 100 2500)).scheduled) ∨
      (∃ z, ("CA", 5, z) ∈ (monitorToken (fun _ => 1000)
        { initialLoopState with alerted := [("CA", 5)] }
        (plainToken "CA" 100 2500)).deferred) :=
  c3_no_silent_skip (fun _ => 1000) { initialLoopState with alerted := [("CA", 5)] }
    (plainToken "CA" 100 2500) 5 10 (by decide) (by decide) rfl rfl 1000
    (by with_unfolding_all decide)

/-- Clock of the C5 counterexample: tier 5 fires at 100 (three reads), then
the tier-10 check reads 103 and the tier-20 check reads 105. -/
def c5clock : ℕ → ℚ := fun i => if i ≤ 2 then 100 else if i = 3 then 103 else 105

/-- The C5 run: baseline 100, current 2500, no prior alerts. -/
def c5run : LoopState :=
  monitorToken c5clock initialLoopState (plainToken "CA" 100 2500)

/-- C5 counterexample: the tier-10 and tier-20 threshold-crossing detections
happen 2 s apart - within `TWEET_INTERVAL` of each other - yet the earlier
of the two (tier 10 at 103) is deferred, not scheduled: after a recent
dispatch, both members of a close pair can be deferred, so it is not the
case that of any two close detection events the earlier one is scheduled
immediately. -/
theorem c5_counterexample :
    c5run.scheduled = [("CA", 5, 100)] ∧
    c5run.deferred = [("CA", 10, 103), ("CA", 20, 105)] ∧
    (105 : ℚ) - 103 < TWEET_INTERVAL ∧
    tierScheduled c5run "CA" 10 = false := by
  refine ⟨by with_unfolding_all rfl, by with_unfolding_all rfl, ?_, by with_unfolding_all decide⟩
  norm_num [TWEET_INTERVAL]

/-- Clock of the spec's two-events-3-seconds-apart scenario. -/
def c5scenarioClock : ℕ → ℚ := fun i => if i ≤ 2 then 100 else 103

/-- C5 amended: (a) in the spec's scenario - two threshold-crossing
detections 3 s apart with spacing previously satisfied - the earlier one is
scheduled immediately and the later one is deferred to the next polling
cycle; (b) in any pass over any token set under a monotone wall clock,
detection times of scheduled sends are pairwise at least `TWEET_INTERVAL`
apart, so two scheduled sends are never initiated within the interval. -/
theorem c5_dispatch_spacing :
    (monitorToken c5scenarioClock initialLoopState
        (plainToken "CA" 100 1000)).scheduled = [("CA", 5, 100)] ∧
    (monitorToken c5scenarioClock initialLoopState
        (plainToken "CA" 100 1000)).deferred = [("CA", 10, 103)] ∧
    (∀ (clock : ℕ → ℚ) (toks : List TokenInput) (s : LoopState),
      MonoClock clock → s.scheduled = [] →
      (monitorCycle clock s toks).scheduled.Pairwise
        (fun a b => a.2.2 + TWEET_INTERVAL ≤ b.2.2)) := by
  refine ⟨by with_unfolding_all rfl, by with_unfolding_all rfl, ?_⟩
  intro clock toks s hc hs
  have hinv : SchedInv s := by
    constructor
    · intro e he
      rw [hs] at he
      cases he
    · rw [hs]
      exact List.Pairwise.nil
  exact (monitorCycle_schedInv clock s toks hc hinv).2

/-- C5 witness: the pairwise-spacing conclusion at a concrete pass. -/
theorem c5_dispatch_spacing_witness :
    (monitorCycle (fun _ => 1000) initialLoopState
        [plainToken "CA" 100 2500]).scheduled.Pairwise
      (fun a b => a.2.2 + TWEET_INTERVAL ≤ b.2.2) :=
  c5_dispatch_spacing.2.2 (fun _ => 1000) [plainToken "CA" 100 2500]
    initialLoopState (fun _ _ _ => le_refl 1000) rfl

/-- C6: per-token and per-tier isolation.  A token whose market-data fetch
fails, whose snapshot has no pairs, whose first pair has no `fdv`, or whose
baseline is zero, leaves the pass state exactly as if the token were absent
from the cycle - every later token is fetched, evaluated and alerted
identically - and a tier whose ledger check raises leaves the state
unchanged for the following tiers. -/
theorem c6_per_token_isolation (clock : ℕ → ℚ) (s : LoopState)
    (tok : TokenInput) (pre post : List TokenInput) :
    (tok.fetch = none →
      monitorCycle clock s (pre ++ tok :: post) = monitorCycle clock s (pre ++ post)) ∧
    (∀ d, tok.fetch = some d → d.pairs = [] →
      monitorCycle clock s (pre ++ tok :: post) = monitorCycle clock s (pre ++ post)) ∧
    (∀ d p ps, tok.fetch = some d → d.pairs = p :: ps → p.fdv = none →
      monitorCycle clock s (pre ++ tok :: post) = monitorCycle clock s (pre ++ post)) ∧
    (∀ d p ps fdv, tok.fetch = some d → d.pairs = p :: ps → p.fdv = some fdv →
      tok.initial_mcap = 0 →
      monitorCycle clock s (pre ++ tok :: post) = monitorCycle clock s (pre ++ post)) ∧
    (∀ (mult : ℚ) (s' : LoopState) (t : ℕ), tok.checkRaises t = true →
      monitorTier clock tok mult s' t = s') := by
  refine ⟨?_, ?_, ?_, ?_, ?_⟩
  · intro h
    exact monitorCycle_skip clock s tok pre post
      (fun s' => monitorToken_fetch_failed clock s' tok h)
  · intro d h hp
    exact monitorCycle_skip clock s tok pre post
      (fun s' => monitorToken_no_pairs clock s' tok d h hp)
  · intro d p ps h hp hf
    exact monitorCycle_skip clock s tok pre post
      (fun s' => monitorToken_no_fdv clock s' tok d p ps h hp hf)
  · intro d p ps fdv h hp hf hz
    exact monitorCycle_skip clock s tok pre post
      (fun s' => monitorToken_zero_baseline clock s' tok d p ps fdv h hp hf hz)
  · intro mult s' t h
    exact monitorTier_checkRaises clock tok mult s' t h

/-- Token of the C6 witness whose fetch fails. -/
def c6badToken : TokenInput :=
  { ca := "BAD", token := "BAD", initial_mcap := 100, fetch := none
    parseOk := true, checkRaises := fun _ => false, recordOk := fun _ => true }

/-- C6 witness: dropping the fetch-failing token from a concrete cycle
leaves the result for the later token untouched. -/
theorem c6_per_token_isolation_witness :
    monitorCycle (fun _ => 1000) initialLoopState
        ([] ++ c6badToken :: [plainToken "CA" 100 2500]) =
      monitorCycle (fun _ => 1000) initialLoopState ([] ++ [plainToken "CA" 100 2500]) :=
  (c6_per_token_isolation (fun _ => 1000) initialLoopState c6badToken []
    [plainToken "CA" 100 2500]).1 rfl

/-- C7: the dispatcher never sends synchronously.  `schedule_tweet` only
places a one-shot job at `now + delay_minutes` (30 minutes by default); in
the firing step of the loop the ledger row is written in the same step that
schedules the job - before any delivery; and running a scheduled job calls
`send_tweet` once, whose failure (any non-201 status or exception) is
reported as `False` without touching the ledger and without enqueueing a
retry. -/
theorem c7_delayed_dispatch (now delayMinutes : ℚ) (ca : String)
    (clock : ℕ → ℚ) (tok : TokenInput) (mult : ℚ) (s : LoopState) (t : ℕ)
    (h1 : (t : ℚ) ≤ mult) (h2 : tok.checkRaises t = false)
    (h3 : (tok.ca, t) ∉ s.alerted)
    (h4 : ¬ clock s.clockIdx - s.lastTweetTime < TWEET_INTERVAL)
    (h5 : tok.parseOk = true) (h6 : tok.recordOk t = true) :
    (schedule_tweet now delayMinutes ca t).runDate = now + delayMinutes * 60 ∧
    (schedule_tweet now 30 ca t).runDate = now + 1800 ∧
    (monitorTier clock tok mult s t).jobs =
      s.jobs ++ [schedule_tweet (clock (s.clockIdx + 1)) 30 tok.ca t] ∧
    (monitorTier clock tok mult s t).alerted = s.alerted ++ [(tok.ca, t)] ∧
    (∀ (ledger : List (String × ℕ)) (pending : List Job) (job : Job)
        (o : PostOutcome),
      runScheduledJob ledger pending job o = (send_tweet o, ledger, pending)) ∧
    send_tweet (PostOutcome.resp 201) = true ∧
    (∀ st : ℕ, st ≠ 201 → send_tweet (PostOutcome.resp st) = false) ∧
    send_tweet PostOutcome.exn = false := by
  refine ⟨rfl, ?_, ?_, ?_, fun _ _ _ _ => rfl, rfl, ?_, rfl⟩
  · show now + 30 * 60 = now + 1800
    norm_num
  · rw [monitorTier_fire clock tok mult s t h1 h2 h3 h4 h5]
  · rw [monitorTier_fire clock tok mult s t h1 h2 h3 h4 h5]
    simp [h6]
  · intro st h
    simp [send_tweet, h]

/-- C7 witness: the firing step of a concrete evaluation. -/
theorem c7_delayed_dispatch_witness :
    (monitorTier (fun _ => 1000) (plainToken "CA" 100 2500) 25
        initialLoopState 5).jobs =
      initialLoopState.jobs ++
        [schedule_tweet ((fun _ => (1000 : ℚ)) (initialLoopState.clockIdx + 1))
          30 (plainToken "CA" 100 2500).ca 5] :=
  (c7_delayed_dispatch 0 30 "CA" (fun _ => 1000) (plainToken "CA" 100 2500) 25
    initialLoopState 5 (by decide) rfl (by decide)
    (by with_unfolding_all decide) rfl rfl).2.2.1

end Dogg
